import Mathlib

/-!
Shallow embedding of the remote-storage adapters (S3, GCS, COS) and of the
REST control plane of the clickhouse-backup repository, together with
theorems settling the specification claims.  Definitions are transcribed
from pkg/chbackup/s3.go, pkg/chbackup/cos.go, the GCS adapter source, and
pkg/chbackup/server.go.  Backend SDK calls are passed in as oracle
functions; each operation returns both the request it issues against the
backend and the result it maps back to the caller.
-/

namespace ChBackup

/-- RemoteFile metadata as surfaced by every adapter (s3File, gcsFile,
cosFile all carry size, lastModified, name).  Time is an abstract integer
clock. -/
structure RemoteFile where
  size : Int
  lastModified : Int
  name : String
deriving DecidableEq, Repr

/-- Provider-level errors an AWS SDK call can return: an awserr.Error
carrying a code, or a plain error that fails the awserr type assertion. -/
inductive S3Err where
  | awsErr (code msg : String)
  | plain (msg : String)
deriving DecidableEq, Repr

/-- Provider-level errors of the GCS client: the storage.ErrObjectNotExist
sentinel, or any other error. -/
inductive GcsErr where
  | objectNotExist
  | other (msg : String)
deriving DecidableEq, Repr

/-- Provider-level errors of the COS client: a cos.ErrorResponse carrying a
code, or any other error that fails the type assertion. -/
inductive CosErr where
  | errorResponse (code : String)
  | other (msg : String)
deriving DecidableEq, Repr

/-- Errors an adapter operation hands back to its caller: the shared
ErrNotFound sentinel, a provider error propagated as is, or a provider
error wrapped with a context note (errors.Wrapf in S3.DeleteFile). -/
inductive AdapterErr where
  | notFound
  | s3e (e : S3Err)
  | gcse (e : GcsErr)
  | cose (e : CosErr)
  | wrapped (note : String) (inner : AdapterErr)
deriving DecidableEq, Repr

/-- A request against one object of a bucket. -/
structure ObjReq where
  bucket : String
  key : String
deriving DecidableEq, Repr

/-- A listing request: bucket plus optional key prefix filter and optional
delimiter. -/
structure ListReq where
  bucket : String
  pfx : Option String
  delimiter : Option String
deriving DecidableEq, Repr

/-! ## S3 adapter (pkg/chbackup/s3.go) -/

/-- The S3Config fields the embedded operations read. -/
structure S3Config where
  bucket : String
  path : String
  partSize : Int
  pathHostnameInclude : Bool
deriving DecidableEq, Repr

/-- The MaxRetries value S3.Connect writes into the aws.Config of the
session every S3 operation runs on (`MaxRetries: aws.Int(30)`). -/
def s3AwsMaxRetries : Nat := 30

/-- Number of underlying calls an SDK with the given attempt budget makes:
it stops at the first success, otherwise it uses up the whole budget.  The
oracle says whether attempt i succeeds.  A configured retry count r gives
budget r + 1. -/
def sdkAttempts (budget : Nat) (ok : Nat → Bool) : Nat :=
  match budget with
  | 0 => 0
  | b + 1 => if ok 0 then 1 else 1 + sdkAttempts b (fun i => ok (i + 1))

/-- Result of an S3 HeadObject call. -/
structure S3Head where
  contentLength : Int
  lastModified : Int
deriving DecidableEq, Repr

/-- S3.GetFile: HeadObject on the effective bucket; an awserr with code
"NotFound" becomes ErrNotFound, every other error is returned as is. -/
def s3GetFile (cfg : S3Config) (key overrideBucket : String)
    (head : ObjReq → Except S3Err S3Head) :
    ObjReq × Except AdapterErr RemoteFile :=
  let bucket := if 0 < overrideBucket.length then overrideBucket else cfg.bucket
  let req : ObjReq := ⟨bucket, key⟩
  match head req with
  | .error (.awsErr code msg) =>
      if code = "NotFound" then (req, .error .notFound)
      else (req, .error (.s3e (.awsErr code msg)))
  | .error (.plain msg) => (req, .error (.s3e (.plain msg)))
  | .ok h => (req, .ok ⟨h.contentLength, h.lastModified, key⟩)

/-- S3.GetFileReader: GetObjectRequest on the effective bucket; errors are
returned as is.  Readers are abstract handles. -/
def s3GetFileReader (cfg : S3Config) (key overrideBucket : String)
    (getObject : ObjReq → Except S3Err String) :
    ObjReq × Except AdapterErr String :=
  let bucket := if 0 < overrideBucket.length then overrideBucket else cfg.bucket
  let req : ObjReq := ⟨bucket, key⟩
  match getObject req with
  | .error e => (req, .error (.s3e e))
  | .ok r => (req, .ok r)

/-- S3.DeleteFile: DeleteObject on the effective bucket; every error is
wrapped with a context note by errors.Wrapf, never mapped to ErrNotFound. -/
def s3DeleteFile (cfg : S3Config) (key overrideBucket : String)
    (deleteObject : ObjReq → Except S3Err Unit) :
    ObjReq × Except AdapterErr Unit :=
  let bucket := if 0 < overrideBucket.length then overrideBucket else cfg.bucket
  let req : ObjReq := ⟨bucket, key⟩
  match deleteObject req with
  | .error e => (req, .error (.wrapped "DeleteFile, deleting object" (.s3e e)))
  | .ok _ => (req, .ok ())

/-- Go path.Base for backup keys: after stripping trailing slashes, the
part after the last slash; "." for the empty path, "/" for all-slash
paths. -/
def goPathBase (p : String) : String :=
  if p = "" then "."
  else
    let stripped := ((p.toList.reverse.dropWhile (· = '/')).reverse)
    if stripped = [] then "/"
    else String.mk ((stripped.reverse.takeWhile (· ≠ '/')).reverse)

/-- Go path.Dir for slash-separated keys without dot segments or repeated
slashes (the only shapes backup keys take): everything before the last
slash with trailing slashes removed, "." when the key has no slash, "/"
for keys directly under the root. -/
def goPathDir (p : String) : String :=
  let cs := p.toList
  let upto := (cs.reverse.dropWhile (· ≠ '/')).reverse
  let stripped := (upto.reverse.dropWhile (· = '/')).reverse
  if stripped = [] then (if upto = [] then "." else "/")
  else String.mk stripped

/-- The key S3.PutFile stores under: when PathHostnameInclude is set and
os.Hostname succeeds, the key is rewritten to dir/<hostname>_<base>;
otherwise it is left unchanged. -/
def s3PutKey (cfg : S3Config) (hostname : Option String) (key : String) : String :=
  if cfg.pathHostnameInclude then
    match hostname with
    | some h => goPathDir key ++ "/" ++ h ++ "_" ++ goPathBase key
    | none => key
  else key

/-- S3.PutFile: uploads the body to the effective bucket under the
(possibly hostname-rewritten) key; the upload error is returned as is. -/
def s3PutFile (cfg : S3Config) (hostname : Option String)
    (key overrideBucket : String)
    (upload : ObjReq → Except S3Err Unit) :
    ObjReq × Except AdapterErr Unit :=
  let key := s3PutKey cfg hostname key
  let bucket := if 0 < overrideBucket.length then overrideBucket else cfg.bucket
  let req : ObjReq := ⟨bucket, key⟩
  match upload req with
  | .error e => (req, .error (.s3e e))
  | .ok _ => (req, .ok ())

/-- One object in an S3 ListObjectsV2 page. -/
structure S3Object where
  size : Int
  lastModified : Int
  key : String
deriving DecidableEq, Repr

/-- The SDK pagination driver ListObjectsV2Pages: it hands each page to the
wrapper and keeps fetching while the wrapper returns true.  The result is
the list of pages actually delivered. -/
def listObjectsV2Pages {α : Type} (pages : List (List α))
    (wrapper : List α → Bool) : List (List α) :=
  match pages with
  | [] => []
  | p :: ps => if wrapper p then p :: listObjectsV2Pages ps wrapper else [p]

/-- S3.remotePager: effective bucket, optional prefix (omitted for "" and
"/"), and a wrapper that always returns true, so every page is
delivered. -/
def s3RemotePager (cfg : S3Config) (s3Path : String) (delim : Bool)
    (overrideBucket : String) (pages : List (List S3Object)) :
    ListReq × List (List S3Object) :=
  let bucket := if 0 < overrideBucket.length then overrideBucket else cfg.bucket
  let req : ListReq :=
    ⟨bucket, if s3Path ≠ "" ∧ s3Path ≠ "/" then some s3Path else none,
      if delim then some "/" else none⟩
  (req, listObjectsV2Pages pages (fun _ => true))

/-- S3.Walk: lists the effective path via remotePager and processes every
Contents entry of every delivered page. -/
def s3Walk (cfg : S3Config) (overrideBucket overridePath : String)
    (pages : List (List S3Object)) : ListReq × List RemoteFile :=
  let usePath := if 0 < overridePath.length then overridePath else cfg.path
  let (req, delivered) := s3RemotePager cfg usePath false overrideBucket pages
  (req, delivered.flatten.map (fun c => ⟨c.size, c.lastModified, c.key⟩))

/-! ## GCS adapter -/

/-- The GCSConfig fields the embedded operations read.  The GCS config has
no hostname-embedding option. -/
structure GCSConfig where
  bucket : String
deriving DecidableEq, Repr

/-- One object returned by the GCS object iterator. -/
structure GcsObject where
  size : Int
  updated : Int
  name : String
deriving DecidableEq, Repr

/-- GCS.Walk: lists the effective bucket with a nil query (the path
argument, the configured path and overridePath are all ignored) and drains
the iterator: objects are processed until iterator.Done; a non-Done error
stops the walk and is returned. -/
def gcsWalkLoop : List (Except String GcsObject) → List RemoteFile × Option String
  | [] => ([], none)
  | .ok o :: rest =>
      let (vs, r) := gcsWalkLoop rest
      (⟨o.size, o.updated, o.name⟩ :: vs, r)
  | .error e :: _ => ([], some e)

/-- GCS.Walk issues one listing request: effective bucket, nil query. -/
def gcsWalk (cfg : GCSConfig) (gcsPath overrideBucket overridePath : String)
    (items : List (Except String GcsObject)) :
    ListReq × (List RemoteFile × Option String) :=
  let bucket := if 0 < overrideBucket.length then overrideBucket else cfg.bucket
  (⟨bucket, none, none⟩, gcsWalkLoop items)

/-- GCS.GetFileReader: opens a reader on the object in the effective
bucket; errors are returned as is. -/
def gcsGetFileReader (cfg : GCSConfig) (key overrideBucket : String)
    (newReader : ObjReq → Except GcsErr String) :
    ObjReq × Except AdapterErr String :=
  let bucket := if 0 < overrideBucket.length then overrideBucket else cfg.bucket
  let req : ObjReq := ⟨bucket, key⟩
  match newReader req with
  | .error e => (req, .error (.gcse e))
  | .ok r => (req, .ok r)

/-- GCS.PutFile: copies the body into a writer on the object in the
effective bucket under the key unchanged (no hostname rewriting exists in
this adapter); copy and close errors are returned as is. -/
def gcsPutFile (cfg : GCSConfig) (key overrideBucket : String)
    (write : ObjReq → Except GcsErr Unit) :
    ObjReq × Except AdapterErr Unit :=
  let bucket := if 0 < overrideBucket.length then overrideBucket else cfg.bucket
  let req : ObjReq := ⟨bucket, key⟩
  match write req with
  | .error e => (req, .error (.gcse e))
  | .ok _ => (req, .ok ())

/-- GCS.GetFile: Attrs on the object in the effective bucket;
storage.ErrObjectNotExist becomes ErrNotFound, every other error is
returned as is. -/
def gcsGetFile (cfg : GCSConfig) (key overrideBucket : String)
    (attrs : ObjReq → Except GcsErr GcsObject) :
    ObjReq × Except AdapterErr RemoteFile :=
  let bucket := if 0 < overrideBucket.length then overrideBucket else cfg.bucket
  let req : ObjReq := ⟨bucket, key⟩
  match attrs req with
  | .error .objectNotExist => (req, .error .notFound)
  | .error e => (req, .error (.gcse e))
  | .ok o => (req, .ok ⟨o.size, o.updated, o.name⟩)

/-- GCS.DeleteFile: Delete on the object in the effective bucket; the
provider error is returned directly, never mapped to ErrNotFound. -/
def gcsDeleteFile (cfg : GCSConfig) (key overrideBucket : String)
    (deleteObj : ObjReq → Except GcsErr Unit) :
    ObjReq × Except AdapterErr Unit :=
  let bucket := if 0 < overrideBucket.length then overrideBucket else cfg.bucket
  let req : ObjReq := ⟨bucket, key⟩
  match deleteObj req with
  | .error e => (req, .error (.gcse e))
  | .ok _ => (req, .ok ())

/-! ## COS adapter (pkg/chbackup/cos.go)

The COS client is built once in Connect from the configured RowUrl (or the
Connect-time override) and every later operation runs against that client;
the overrideBucket parameter of the per-operation calls is never read. -/

/-- The COSConfig fields the embedded operations read. -/
structure COSConfig where
  rowUrl : String
  path : String
deriving DecidableEq, Repr

/-- COS.Connect: the bucket URL baked into the client is the Connect-time
override when non-empty, else the configured RowUrl.  The client is just
that URL here. -/
def cosConnect (cfg : COSConfig) (overrideBucket : String) : String :=
  if 0 < overrideBucket.length then overrideBucket else cfg.rowUrl

/-- COS.GetFile: Object.Get against the connected client (the
overrideBucket argument is unused in the source); a cos.ErrorResponse with
code "NoSuchKey" becomes ErrNotFound, every other error is returned as
is.  The name surfaced is the request URL path of the response. -/
def cosGetFile (client : String) (key overrideBucket : String)
    (get : ObjReq → Except CosErr (Int × Int × String)) :
    ObjReq × Except AdapterErr RemoteFile :=
  let req : ObjReq := ⟨client, key⟩
  match get req with
  | .error (.errorResponse code) =>
      if code = "NoSuchKey" then (req, .error .notFound)
      else (req, .error (.cose (.errorResponse code)))
  | .error (.other msg) => (req, .error (.cose (.other msg)))
  | .ok (size, modified, urlPath) => (req, .ok ⟨size, modified, urlPath⟩)

/-- COS.DeleteFile: Object.Delete against the connected client (the
overrideBucket argument is unused in the source); the provider error is
returned directly, never mapped to ErrNotFound. -/
def cosDeleteFile (client : String) (key overrideBucket : String)
    (deleteObj : ObjReq → Except CosErr Unit) :
    ObjReq × Except AdapterErr Unit :=
  let req : ObjReq := ⟨client, key⟩
  match deleteObj req with
  | .error e => (req, .error (.cose e))
  | .ok _ => (req, .ok ())

/-- COS.GetFileReader: Object.Get against the connected client (the
overrideBucket argument is unused in the source); errors are returned as
is. -/
def cosGetFileReader (client : String) (key overrideBucket : String)
    (get : ObjReq → Except CosErr String) :
    ObjReq × Except AdapterErr String :=
  let req : ObjReq := ⟨client, key⟩
  match get req with
  | .error e => (req, .error (.cose e))
  | .ok r => (req, .ok r)

/-- COS.PutFile: Object.Put of the key unchanged (no hostname rewriting
exists in this adapter) against the connected client; the overrideBucket
argument is unused in the source. -/
def cosPutFile (client : String) (key overrideBucket : String)
    (put : ObjReq → Except CosErr Unit) :
    ObjReq × Except AdapterErr Unit :=
  let req : ObjReq := ⟨client, key⟩
  match put req with
  | .error e => (req, .error (.cose e))
  | .ok _ => (req, .ok ())

/-- One object in a COS Bucket.Get result page. -/
structure CosObject where
  key : String
  lastModified : Int
  size : Int
deriving DecidableEq, Repr

/-- A paginated COS listing: the full sequence of pages the backend holds
under the requested prefix.  A single Bucket.Get call returns only the
first page (with an IsTruncated marker when more remain). -/
def cosBucketGetFirstPage (pages : List (List CosObject)) : List CosObject :=
  pages.headD []

/-- COS.Walk: one Bucket.Get with the effective path as prefix against the
connected client, processing only the contents of that single result; the
path argument and the overrideBucket argument are unused in the source and
no further page is requested. -/
def cosWalk (client : String) (cfg : COSConfig)
    (path overrideBucket overridePath : String)
    (pages : List (List CosObject)) :
    ListReq × Except AdapterErr (List RemoteFile) :=
  let usePath := if 0 < overridePath.length then overridePath else cfg.path
  let req : ListReq := ⟨client, some usePath, none⟩
  (req, .ok ((cosBucketGetFirstPage pages).map
    (fun v => ⟨v.size, v.lastModified, v.key⟩)))

/-! ## Control server (pkg/chbackup/server.go) -/

/-- The prometheus metrics of the API server: four gauges and two
counters. -/
structure Metrics where
  lastBackupSuccess : Int
  lastBackupStart : Int
  lastBackupEnd : Int
  lastBackupDuration : Int
  successfulBackups : Nat
  failedBackups : Nat
deriving DecidableEq, Repr

/-- setupMetrics: prometheus gauges and counters begin at 0; after
registration LastBackupSuccess is set to 2 (0=failed, 1=success,
2=unknown). -/
def setupMetrics : Metrics :=
  { lastBackupSuccess := 2, lastBackupStart := 0, lastBackupEnd := 0,
    lastBackupDuration := 0, successfulBackups := 0, failedBackups := 0 }

/-- Modelled from the spec: the configuration record (config.go is not
among the sources).  Only the fields the server code reads plus a
representative backend field are kept. -/
structure Config where
  apiListenAddr : String
  generalRemoteStorage : String
  s3Bucket : String
deriving DecidableEq, Repr

/-- Modelled from the spec: DefaultConfig constructs a fresh configuration
holding only default values. -/
def DefaultConfig : Config :=
  { apiListenAddr := "localhost:7171", generalRemoteStorage := "none",
    s3Bucket := "" }

/-- A YAML document as far as the configuration is concerned: for each
field, either a value present in the document or nothing. -/
structure ConfigPatch where
  apiListenAddr : Option String
  generalRemoteStorage : Option String
  s3Bucket : Option String
deriving DecidableEq, Repr

/-- yaml.Unmarshal into an already-populated value: fields present in the
document overwrite, absent fields keep whatever the target already
holds. -/
def yamlUnmarshalOver (base : Config) (p : ConfigPatch) : Config :=
  { apiListenAddr := p.apiListenAddr.getD base.apiListenAddr,
    generalRemoteStorage := p.generalRemoteStorage.getD base.generalRemoteStorage,
    s3Bucket := p.s3Bucket.getD base.s3Bucket }

/-- The JSON envelope APIResult of server.go. -/
structure ApiResult where
  type : String
  message : String
deriving DecidableEq, Repr

/-- An HTTP response: status code plus the envelope written, if any (the
config-update success path writes nothing). -/
structure HttpResp where
  status : Nat
  body : Option ApiResult
deriving DecidableEq, Repr

/-- The mutable state of the APIServer visible to the handlers: the
single-slot semaphore, the stored configuration and the metrics. -/
structure ServerState where
  lockHeld : Bool
  config : Config
  metrics : Metrics
deriving DecidableEq, Repr

/-- What one handler call produces: the server state when the handler
returns (deferred lock releases already run), the response, whether the
backup-engine operation was invoked, and whether a reload signal was sent
on the restart channel. -/
structure HandlerOut where
  state : ServerState
  resp : HttpResp
  opInvoked : Bool
  restartSent : Bool
deriving DecidableEq, Repr

/-- The ErrAPILocked message. -/
def errAPILocked : String := "Another operation is currently running"

/-- The shared rejection block: TryAcquire failed, so the handler writes
503 with the ErrAPILocked envelope and returns without touching anything;
the lock stays with its current holder. -/
def apiLockedOut (st : ServerState) : HandlerOut :=
  { state := st, resp := ⟨503, some ⟨"error", errAPILocked⟩⟩,
    opInvoked := false, restartSent := false }

/-- httpCreateHandler: guarded by the lock; LastBackupStart is set right
after acquisition, LastBackupEnd and LastBackupDuration are set by defers
on every exit of the guarded body, the outcome gauge and exactly one
counter are updated per attempt.  tStart and tEnd are the clock samples at
entry and exit; createResult is the CreateBackup outcome and marshalOk
whether marshalling the success envelope worked. -/
def httpCreateHandler (st : ServerState) (tStart tEnd : Int)
    (createResult : Except String String) (marshalOk : Bool) : HandlerOut :=
  if st.lockHeld then apiLockedOut st
  else
    let m0 := { st.metrics with lastBackupStart := tStart }
    let atExit := fun (m : Metrics) =>
      { m with lastBackupEnd := tEnd, lastBackupDuration := tEnd - tStart }
    match createResult with
    | .error e =>
        let m1 := atExit { m0 with failedBackups := m0.failedBackups + 1,
                                   lastBackupSuccess := 0 }
        ⟨{ st with metrics := m1 }, ⟨500, some ⟨"error", e⟩⟩, true, false⟩
    | .ok backupName =>
        if marshalOk then
          let m1 := atExit { m0 with successfulBackups := m0.successfulBackups + 1,
                                     lastBackupSuccess := 1 }
          ⟨{ st with metrics := m1 }, ⟨200, some ⟨"success", backupName⟩⟩, true, false⟩
        else
          let m1 := atExit { m0 with failedBackups := m0.failedBackups + 1,
                                     lastBackupSuccess := 0 }
          ⟨{ st with metrics := m1 }, ⟨500, some ⟨"error", "marshal error"⟩⟩, true, false⟩

/-- httpFreezeHandler: guarded by the lock; invokes Freeze and wraps the
outcome. -/
def httpFreezeHandler (st : ServerState) (freezeResult : Except String Unit)
    (marshalOk : Bool) : HandlerOut :=
  if st.lockHeld then apiLockedOut st
  else match freezeResult with
  | .error e => ⟨st, ⟨500, some ⟨"error", e⟩⟩, true, false⟩
  | .ok _ =>
      if marshalOk then ⟨st, ⟨200, some ⟨"success", ""⟩⟩, true, false⟩
      else ⟨st, ⟨500, some ⟨"error", "marshal error"⟩⟩, true, false⟩

/-- httpCleanHandler: guarded by the lock; invokes Clean and wraps the
outcome. -/
def httpCleanHandler (st : ServerState) (cleanResult : Except String Unit)
    (marshalOk : Bool) : HandlerOut :=
  if st.lockHeld then apiLockedOut st
  else match cleanResult with
  | .error e => ⟨st, ⟨500, some ⟨"error", e⟩⟩, true, false⟩
  | .ok _ =>
      if marshalOk then ⟨st, ⟨200, some ⟨"success", ""⟩⟩, true, false⟩
      else ⟨st, ⟨500, some ⟨"error", "marshal error"⟩⟩, true, false⟩

/-- httpUploadHandler: the source never calls TryAcquire — it
invokes Upload unconditionally, whatever the lock state, and wraps the
outcome. -/
def httpUploadHandler (st : ServerState) (uploadResult : Except String Unit)
    (marshalOk : Bool) : HandlerOut :=
  match uploadResult with
  | .error e => ⟨st, ⟨500, some ⟨"error", e⟩⟩, true, false⟩
  | .ok _ =>
      if marshalOk then ⟨st, ⟨200, some ⟨"success", ""⟩⟩, true, false⟩
      else ⟨st, ⟨500, some ⟨"error", "marshal error"⟩⟩, true, false⟩

/-- httpDownloadHandler: the source never calls TryAcquire — it invokes
Download unconditionally, whatever the lock state, and wraps the
outcome. -/
def httpDownloadHandler (st : ServerState) (downloadResult : Except String Unit)
    (marshalOk : Bool) : HandlerOut :=
  match downloadResult with
  | .error e => ⟨st, ⟨500, some ⟨"error", e⟩⟩, true, false⟩
  | .ok _ =>
      if marshalOk then ⟨st, ⟨200, some ⟨"success", ""⟩⟩, true, false⟩
      else ⟨st, ⟨500, some ⟨"error", "marshal error"⟩⟩, true, false⟩

/-- httpRestoreHandler: guarded by the lock; invokes Restore and wraps the
outcome. -/
def httpRestoreHandler (st : ServerState) (restoreResult : Except String Unit)
    (marshalOk : Bool) : HandlerOut :=
  if st.lockHeld then apiLockedOut st
  else match restoreResult with
  | .error e => ⟨st, ⟨500, some ⟨"error", e⟩⟩, true, false⟩
  | .ok _ =>
      if marshalOk then ⟨st, ⟨200, some ⟨"success", ""⟩⟩, true, false⟩
      else ⟨st, ⟨500, some ⟨"error", "marshal error"⟩⟩, true, false⟩

/-- httpDeleteHandler: guarded by the lock; dispatches on the where path
variable to RemoveBackupLocal or RemoveBackupRemote, rejecting anything
else without invoking an operation. -/
def httpDeleteHandler (st : ServerState) (whereArg : String)
    (removeLocal removeRemote : Except String Unit)
    (marshalOk : Bool) : HandlerOut :=
  if st.lockHeld then apiLockedOut st
  else
    let finish := fun (r : Except String Unit) =>
      match r with
      | .error e => HandlerOut.mk st ⟨500, some ⟨"error", e⟩⟩ true false
      | .ok _ =>
          if marshalOk then HandlerOut.mk st ⟨200, some ⟨"success", ""⟩⟩ true false
          else HandlerOut.mk st ⟨500, some ⟨"error", "marshal error"⟩⟩ true false
    match whereArg with
    | "local" => finish removeLocal
    | "remote" => finish removeRemote
    | _ => ⟨st, ⟨500, some ⟨"error", "Backup location must be local or remote."⟩⟩,
            false, false⟩

/-- httpConfigUpdateHandler: guarded by the lock; reads the body, parses
the YAML over a freshly constructed DefaultConfig, validates, and only
then stores the new configuration and sends the restart signal.  Every
failing step returns with the stored configuration untouched and no
signal.  bodyRead is the ioutil.ReadAll outcome, yamlParse the
yaml.Unmarshal outcome and validate the validateConfig outcome
(validateConfig is outside the sources and stays an oracle). -/
def httpConfigUpdateHandler (st : ServerState)
    (bodyRead : Except String String)
    (yamlParse : String → Except String ConfigPatch)
    (validate : Config → Except String Unit) : HandlerOut :=
  if st.lockHeld then apiLockedOut st
  else match bodyRead with
  | .error e =>
      ⟨st, ⟨500, some ⟨"error", "Error parsing POST form: " ++ e⟩⟩, false, false⟩
  | .ok body =>
    match yamlParse body with
    | .error e =>
        ⟨st, ⟨500, some ⟨"error", "Error parsing new config: " ++ e⟩⟩, false, false⟩
    | .ok p =>
        let newConfig := yamlUnmarshalOver DefaultConfig p
        match validate newConfig with
        | .error e =>
            ⟨st, ⟨500, some ⟨"error", "Error validating new config: " ++ e⟩⟩,
              false, false⟩
        | .ok _ => ⟨{ st with config := newConfig }, ⟨200, none⟩, true, true⟩

/-- Outcome of one server generation: ListenAndServe either returns
http.ErrServerClosed (the control loop closed the listener after a restart
signal) or some other error such as a failed bind. -/
inductive ListenOutcome where
  | serverClosed
  | bindError (msg : String)
deriving DecidableEq, Repr

/-- The Server loop: each generation runs ListenAndServe in a goroutine
that calls os.Exit(1) whenever the result is not http.ErrServerClosed,
first generation or not; on ErrServerClosed the loop rebuilds the server
from the reloaded configuration and starts the next generation.  True
means the process was terminated by os.Exit(1). -/
def serverLoopExits : List ListenOutcome → Bool
  | [] => false
  | .serverClosed :: rest => serverLoopExits rest
  | .bindError _ :: _ => true

/-! ## Helper lemmas -/

/-- A pagination wrapper that always asks for more delivers every page. -/
theorem listObjectsV2Pages_all {α : Type} (pages : List (List α)) :
    listObjectsV2Pages pages (fun _ => true) = pages := by
  induction pages with
  | nil => rfl
  | cons p ps ih => simp [listObjectsV2Pages, ih]

/-- Draining an error-free GCS iterator visits every object, in order. -/
theorem gcsWalkLoop_ok (objs : List GcsObject) :
    gcsWalkLoop (objs.map Except.ok) =
      (objs.map (fun o => (⟨o.size, o.updated, o.name⟩ : RemoteFile)), none) := by
  induction objs with
  | nil => rfl
  | cons o os ih => simp [gcsWalkLoop, ih]

/-- The freeze handler never touches the metrics. -/
theorem freeze_metrics_unchanged (st : ServerState) (r : Except String Unit)
    (mk : Bool) : (httpFreezeHandler st r mk).state.metrics = st.metrics := by
  cases r <;> by_cases hl : st.lockHeld <;>
    simp [httpFreezeHandler, apiLockedOut, hl] <;> split <;> rfl

/-- The clean handler never touches the metrics. -/
theorem clean_metrics_unchanged (st : ServerState) (r : Except String Unit)
    (mk : Bool) : (httpCleanHandler st r mk).state.metrics = st.metrics := by
  cases r <;> by_cases hl : st.lockHeld <;>
    simp [httpCleanHandler, apiLockedOut, hl] <;> split <;> rfl

/-- The upload handler never touches the metrics. -/
theorem upload_metrics_unchanged (st : ServerState) (r : Except String Unit)
    (mk : Bool) : (httpUploadHandler st r mk).state.metrics = st.metrics := by
  cases r <;> simp [httpUploadHandler] <;> split <;> rfl

/-- The download handler never touches the metrics. -/
theorem download_metrics_unchanged (st : ServerState) (r : Except String Unit)
    (mk : Bool) : (httpDownloadHandler st r mk).state.metrics = st.metrics := by
  cases r <;> simp [httpDownloadHandler] <;> split <;> rfl

/-- The restore handler never touches the metrics. -/
theorem restore_metrics_unchanged (st : ServerState) (r : Except String Unit)
    (mk : Bool) : (httpRestoreHandler st r mk).state.metrics = st.metrics := by
  cases r <;> by_cases hl : st.lockHeld <;>
    simp [httpRestoreHandler, apiLockedOut, hl] <;> split <;> rfl

/-- The delete handler never touches the metrics. -/
theorem delete_metrics_unchanged (st : ServerState) (whereArg : String)
    (rl rr : Except String Unit) (mk : Bool) :
    (httpDeleteHandler st whereArg rl rr mk).state.metrics = st.metrics := by
  by_cases hl : st.lockHeld <;>
    simp only [httpDeleteHandler, apiLockedOut, hl] <;>
    repeat' first
      | rfl
      | split

/-- The config-update handler never touches the metrics. -/
theorem config_update_metrics_unchanged (st : ServerState)
    (bodyRead : Except String String)
    (yamlParse : String → Except String ConfigPatch)
    (validate : Config → Except String Unit) :
    (httpConfigUpdateHandler st bodyRead yamlParse validate).state.metrics
      = st.metrics := by
  by_cases hl : st.lockHeld <;>
    simp only [httpConfigUpdateHandler, apiLockedOut, hl] <;>
    repeat' first
      | rfl
      | split

/-- With a positive budget the SDK makes at least one call. -/
theorem sdkAttempts_pos (budget : Nat) (ok : Nat → Bool) (h : 0 < budget) :
    1 ≤ sdkAttempts budget ok := by
  cases budget with
  | zero => exact absurd h (by simp)
  | succ b =>
      simp only [sdkAttempts]
      split <;> omega

/-! ## Claim theorems -/

/-- Claim C1: the claim says every mutating endpoint, upload and download
included, first attempts the operation lock and answers 503 LockContention
while the lock is held.  In the source the upload and download handlers
never call TryAcquire: called while another mutating call holds the lock,
each still invokes its backup-engine operation and answers 200, exactly
the behaviour the claim (and the shared lock discipline of the six other
mutating handlers) rules out. -/
theorem C1_upload_download_ignore_lock :
    (httpUploadHandler ⟨true, DefaultConfig, setupMetrics⟩ (.ok ()) true).opInvoked = true
    ∧ (httpUploadHandler ⟨true, DefaultConfig, setupMetrics⟩ (.ok ()) true).resp.status = 200
    ∧ (httpDownloadHandler ⟨true, DefaultConfig, setupMetrics⟩ (.ok ()) true).opInvoked = true
    ∧ (httpDownloadHandler ⟨true, DefaultConfig, setupMetrics⟩ (.ok ()) true).resp.status = 200
    ∧ (⟨true, DefaultConfig, setupMetrics⟩ : ServerState).lockHeld = true :=
  ⟨rfl, rfl, rfl, rfl, rfl⟩

/-- Claim C2 counterexample: a COS backend holding two listing pages, one object
each.  COS.Walk issues a single Bucket.Get and processes only the first
page, so the object of the second page is never visited, against the
claim that every adapter drains all pages. -/
theorem C2_cos_walk_misses_second_page :
    (cosWalk "url" ⟨"url", "p"⟩ "" "" "" [[⟨"a", 1, 1⟩], [⟨"b", 2, 2⟩]]).2
      = .ok [⟨1, 1, "a"⟩]
    ∧ (Except.ok [(⟨1, 1, "a"⟩ : RemoteFile)] : Except AdapterErr (List RemoteFile))
      ≠ .ok [⟨1, 1, "a"⟩, ⟨2, 2, "b"⟩] :=
  ⟨rfl, by simp⟩

/-- Claim C2 amended: S3.Walk visits every object of every page exactly once
(ListObjectsV2Pages drains the listing because the wrapper always
continues), GCS.Walk drains its iterator and visits every object exactly
once, but COS.Walk visits exactly the objects of the first listing page. -/
theorem C2_walk_pagination (s3cfg : S3Config) (ob op : String)
    (pages : List (List S3Object)) (gcfg : GCSConfig) (gp gob gop : String)
    (objs : List GcsObject) (client : String) (ccfg : COSConfig)
    (cp cob cop : String) (cpages : List (List CosObject)) :
    (s3Walk s3cfg ob op pages).2
      = pages.flatten.map (fun c => ⟨c.size, c.lastModified, c.key⟩)
    ∧ (gcsWalk gcfg gp gob gop (objs.map Except.ok)).2
      = (objs.map (fun o => ⟨o.size, o.updated, o.name⟩), none)
    ∧ (cosWalk client ccfg cp cob cop cpages).2
      = .ok ((cpages.headD []).map (fun v => ⟨v.size, v.lastModified, v.key⟩)) := by
  refine ⟨?_, ?_, rfl⟩
  · simp [s3Walk, s3RemotePager, listObjectsV2Pages_all]
  · simp [gcsWalk, gcsWalkLoop_ok]

/-- Claim C3 counterexample: a COS adapter connected to its configured bucket
URL.  GetFile called with a non-empty overrideBucket still issues its
request against the connected URL: the override never takes precedence,
against the claim that it does in every adapter operation. -/
theorem C3_cos_get_file_ignores_override :
    (cosGetFile "configured-url" "k" "other-bucket"
        (fun _ => .error (.other "e"))).1.bucket = "configured-url"
    ∧ "configured-url" ≠ "other-bucket"
    ∧ 0 < ("other-bucket" : String).length :=
  ⟨rfl, by decide, by decide⟩

/-- Claim C3 amended: a non-empty override takes precedence in every S3
operation (bucket in GetFile, GetFileReader, DeleteFile, PutFile and in
the Walk listing, path in the Walk listing) and in the four GCS object
operations and the GCS Walk bucket; but GCS.Walk ignores both the path
argument and overridePath (it lists with no prefix at all), COS honours
the override bucket only at Connect time and its per-operation
overrideBucket arguments are ignored, while COS.Walk honours
overridePath. -/
theorem C3_override_precedence (cfg : S3Config) (g : GCSConfig)
    (ccfg : COSConfig) (client key ob op gpath cpath : String)
    (hostname : Option String)
    (hob : 0 < ob.length) (hop : 0 < op.length) (hopr : op ≠ "/")
    (headO getO : ObjReq → Except S3Err S3Head)
    (readO : ObjReq → Except S3Err String)
    (delO upO : ObjReq → Except S3Err Unit)
    (pages : List (List S3Object))
    (attrsG : ObjReq → Except GcsErr GcsObject)
    (readG : ObjReq → Except GcsErr String)
    (delG writeG : ObjReq → Except GcsErr Unit)
    (items : List (Except String GcsObject))
    (getC : ObjReq → Except CosErr (Int × Int × String))
    (readC : ObjReq → Except CosErr String)
    (delC putC : ObjReq → Except CosErr Unit)
    (cpages : List (List CosObject)) :
    (s3GetFile cfg key ob headO).1.bucket = ob
    ∧ (s3GetFileReader cfg key ob readO).1.bucket = ob
    ∧ (s3DeleteFile cfg key ob delO).1.bucket = ob
    ∧ (s3PutFile cfg hostname key ob upO).1.bucket = ob
    ∧ (s3Walk cfg ob op pages).1 = ⟨ob, some op, none⟩
    ∧ (gcsGetFile g key ob attrsG).1.bucket = ob
    ∧ (gcsGetFileReader g key ob readG).1.bucket = ob
    ∧ (gcsPutFile g key ob writeG).1.bucket = ob
    ∧ (gcsDeleteFile g key ob delG).1.bucket = ob
    ∧ (gcsWalk g gpath ob op items).1 = ⟨ob, none, none⟩
    ∧ cosConnect ccfg ob = ob
    ∧ (cosGetFile client key ob getC).1.bucket = client
    ∧ (cosGetFileReader client key ob readC).1.bucket = client
    ∧ (cosPutFile client key ob putC).1.bucket = client
    ∧ (cosDeleteFile client key ob delC).1.bucket = client
    ∧ (cosWalk client ccfg cpath ob op cpages).1 = ⟨client, some op, none⟩ := by
  have hone : op ≠ "" := by
    intro h
    rw [h] at hop
    simp at hop
  constructor
  · simp only [s3GetFile, hob, if_pos]
    split <;> (try split) <;> rfl
  constructor
  · simp only [s3GetFileReader, hob, if_pos]
    split <;> rfl
  constructor
  · simp only [s3DeleteFile, hob, if_pos]
    split <;> rfl
  constructor
  · simp only [s3PutFile, hob, if_pos]
    split <;> rfl
  constructor
  · simp [s3Walk, s3RemotePager, hob, hop, hone, hopr]
  constructor
  · simp only [gcsGetFile, hob, if_pos]
    split <;> rfl
  constructor
  · simp only [gcsGetFileReader, hob, if_pos]
    split <;> rfl
  constructor
  · simp only [gcsPutFile, hob, if_pos]
    split <;> rfl
  constructor
  · simp only [gcsDeleteFile, hob, if_pos]
    split <;> rfl
  constructor
  · simp [gcsWalk, hob]
  constructor
  · simp [cosConnect, hob]
  constructor
  · simp only [cosGetFile]
    split <;> (try split) <;> rfl
  constructor
  · simp only [cosGetFileReader]
    split <;> rfl
  constructor
  · simp only [cosPutFile]
    split <;> rfl
  constructor
  · simp only [cosDeleteFile]
    split <;> rfl
  · simp [cosWalk, hop]

/-- Claim C3 witness: the amended precedence statement applied at concrete
configurations, overrides and oracles. -/
theorem C3_override_precedence_witness :
    (s3GetFile ⟨"cb", "cp", 5, false⟩ "k" "ovb"
        (fun _ => .error (.plain "e"))).1.bucket = "ovb" :=
  (C3_override_precedence ⟨"cb", "cp", 5, false⟩ ⟨"gb"⟩ ⟨"cu", "cp2"⟩
    "cl" "k" "ovb" "ovp" "gp" "cp3" none (by decide) (by decide) (by decide)
    (fun _ => .error (.plain "e")) (fun _ => .error (.plain "e"))
    (fun _ => .ok "r") (fun _ => .ok ()) (fun _ => .ok ()) []
    (fun _ => .error .objectNotExist) (fun _ => .ok "r") (fun _ => .ok ())
    (fun _ => .ok ()) [] (fun _ => .error (.other "e")) (fun _ => .ok "r")
    (fun _ => .ok ()) (fun _ => .ok ()) []).1

/-- Claim C4 counterexample: GCS.DeleteFile of a key that does not exist.  The
client reports storage.ErrObjectNotExist and the adapter returns that
provider error directly instead of the ErrNotFound sentinel the claim
requires. -/
theorem C4_gcs_delete_not_mapped :
    (gcsDeleteFile ⟨"b"⟩ "missing" "" (fun _ => .error .objectNotExist)).2
      = .error (.gcse .objectNotExist)
    ∧ (Except.error (AdapterErr.gcse .objectNotExist) : Except AdapterErr Unit)
      ≠ .error .notFound :=
  ⟨rfl, by simp⟩

/-- Claim C4 amended: GetFile maps the backend missing-object signal to
ErrNotFound in all three adapters and passes every other backend error
through unwrapped; DeleteFile never maps to ErrNotFound — GCS and COS
return the provider error as is and S3 wraps every delete error with a
context note. -/
theorem C4_not_found_mapping (cfg : S3Config) (g : GCSConfig)
    (client key ob code msg : String) (e3 : S3Err) (eg : GcsErr) (ec : CosErr)
    (hs3 : code ≠ "NotFound") (hcos : code ≠ "NoSuchKey")
    (hgcs : eg ≠ .objectNotExist) :
    (s3GetFile cfg key ob (fun _ => .error (.awsErr "NotFound" msg))).2
      = .error .notFound
    ∧ (s3GetFile cfg key ob (fun _ => .error (.awsErr code msg))).2
      = .error (.s3e (.awsErr code msg))
    ∧ (s3GetFile cfg key ob (fun _ => .error (.plain msg))).2
      = .error (.s3e (.plain msg))
    ∧ (gcsGetFile g key ob (fun _ => .error .objectNotExist)).2
      = .error .notFound
    ∧ (gcsGetFile g key ob (fun _ => .error eg)).2 = .error (.gcse eg)
    ∧ (cosGetFile client key ob (fun _ => .error (.errorResponse "NoSuchKey"))).2
      = .error .notFound
    ∧ (cosGetFile client key ob (fun _ => .error (.errorResponse code))).2
      = .error (.cose (.errorResponse code))
    ∧ (cosGetFile client key ob (fun _ => .error (.other msg))).2
      = .error (.cose (.other msg))
    ∧ (s3DeleteFile cfg key ob (fun _ => .error e3)).2
      = .error (.wrapped "DeleteFile, deleting object" (.s3e e3))
    ∧ (gcsDeleteFile g key ob (fun _ => .error eg)).2 = .error (.gcse eg)
    ∧ (cosDeleteFile client key ob (fun _ => .error ec)).2 = .error (.cose ec) := by
  refine ⟨by simp [s3GetFile], by simp [s3GetFile, hs3], by simp [s3GetFile],
    by simp [gcsGetFile], ?_, by simp [cosGetFile], by simp [cosGetFile, hcos],
    by simp [cosGetFile], by simp [s3DeleteFile], ?_, by simp [cosDeleteFile]⟩
  · cases eg with
    | objectNotExist => exact absurd rfl hgcs
    | other m => simp [gcsGetFile]
  · cases eg with
    | objectNotExist => simp [gcsDeleteFile]
    | other m => simp [gcsDeleteFile]

/-- Claim C4 witness: the amended mapping applied at concrete configurations,
keys and provider errors. -/
theorem C4_not_found_mapping_witness :
    (s3GetFile ⟨"b", "p", 5, false⟩ "k" ""
        (fun _ => .error (.awsErr "NotFound" "m"))).2 = .error .notFound :=
  (C4_not_found_mapping ⟨"b", "p", 5, false⟩ ⟨"gb"⟩ "cl" "k" "" "AccessDenied"
    "m" (.plain "x") (.other "y") (.other "z") (by simp) (by simp)
    (by simp)).1

/-- Claim C5: an invalid submission to the config-update endpoint — unreadable
body, unparsable YAML, or failed semantic validation — returns a 500
error envelope and leaves the server state exactly as it was: the stored
configuration is not replaced and no restart signal is sent. -/
theorem C5_invalid_config_rejected (st : ServerState)
    (bodyRead : Except String String)
    (yamlParse : String → Except String ConfigPatch)
    (validate : Config → Except String Unit)
    (hlock : st.lockHeld = false)
    (hinvalid : (∃ e, bodyRead = .error e)
      ∨ (∃ b p, bodyRead = .ok b ∧ yamlParse b = .error p)
      ∨ (∃ b p e, bodyRead = .ok b ∧ yamlParse b = .ok p
          ∧ validate (yamlUnmarshalOver DefaultConfig p) = .error e)) :
    (httpConfigUpdateHandler st bodyRead yamlParse validate).state = st
    ∧ (httpConfigUpdateHandler st bodyRead yamlParse validate).restartSent = false
    ∧ (httpConfigUpdateHandler st bodyRead yamlParse validate).resp.status = 500
    ∧ ∃ m, (httpConfigUpdateHandler st bodyRead yamlParse validate).resp.body
        = some ⟨"error", m⟩ := by
  rcases hinvalid with ⟨e, he⟩ | ⟨b, p, hb, hp⟩ | ⟨b, p, e, hb, hp, hv⟩
  · subst he
    simp [httpConfigUpdateHandler, hlock]
  · subst hb
    simp [httpConfigUpdateHandler, hlock, hp]
  · subst hb
    simp [httpConfigUpdateHandler, hlock, hp, hv]

/-- Claim C5 witness: a submission whose YAML fails to parse, against a lock-free
server, is rejected with the state untouched. -/
theorem C5_invalid_config_rejected_witness :
    (httpConfigUpdateHandler ⟨false, DefaultConfig, setupMetrics⟩ (.ok "body")
        (fun _ => .error "bad yaml") (fun _ => .ok ())).state
      = ⟨false, DefaultConfig, setupMetrics⟩ :=
  (C5_invalid_config_rejected ⟨false, DefaultConfig, setupMetrics⟩ (.ok "body")
    (fun _ => .error "bad yaml") (fun _ => .ok ()) rfl
    (Or.inr (Or.inl ⟨"body", "bad yaml", rfl, rfl⟩))).1

/-- Claim C6: around the create-backup handler and only there: when the lock is
acquired, LastBackupStart takes the entry clock sample on every path,
LastBackupEnd and LastBackupDuration take the exit samples on every path,
LastBackupSuccess becomes 1 exactly on success and 0 on failure with the
matching counter incremented, and the two counters together grow by
exactly one per attempt; LastBackupSuccess starts at 2 (unknown) at
process start; a lock-rejected call and every other handler leave the
metrics untouched. -/
theorem C6_create_metrics (st : ServerState) (tStart tEnd : Int)
    (res : Except String String) (marshalOk : Bool)
    (hlock : st.lockHeld = false) :
    (httpCreateHandler st tStart tEnd res marshalOk).state.metrics.lastBackupStart = tStart
    ∧ (httpCreateHandler st tStart tEnd res marshalOk).state.metrics.lastBackupEnd = tEnd
    ∧ (httpCreateHandler st tStart tEnd res marshalOk).state.metrics.lastBackupDuration
        = tEnd - tStart
    ∧ (∀ n, res = .ok n → marshalOk = true →
        (httpCreateHandler st tStart tEnd res marshalOk).state.metrics.lastBackupSuccess = 1
        ∧ (httpCreateHandler st tStart tEnd res marshalOk).state.metrics.successfulBackups
            = st.metrics.successfulBackups + 1
        ∧ (httpCreateHandler st tStart tEnd res marshalOk).state.metrics.failedBackups
            = st.metrics.failedBackups)
    ∧ (∀ e, res = .error e →
        (httpCreateHandler st tStart tEnd res marshalOk).state.metrics.lastBackupSuccess = 0
        ∧ (httpCreateHandler st tStart tEnd res marshalOk).state.metrics.failedBackups
            = st.metrics.failedBackups + 1
        ∧ (httpCreateHandler st tStart tEnd res marshalOk).state.metrics.successfulBackups
            = st.metrics.successfulBackups)
    ∧ (∀ n, res = .ok n → marshalOk = false →
        (httpCreateHandler st tStart tEnd res marshalOk).state.metrics.lastBackupSuccess = 0
        ∧ (httpCreateHandler st tStart tEnd res marshalOk).state.metrics.failedBackups
            = st.metrics.failedBackups + 1
        ∧ (httpCreateHandler st tStart tEnd res marshalOk).state.metrics.successfulBackups
            = st.metrics.successfulBackups)
    ∧ (httpCreateHandler st tStart tEnd res marshalOk).state.metrics.successfulBackups
        + (httpCreateHandler st tStart tEnd res marshalOk).state.metrics.failedBackups
        = st.metrics.successfulBackups + st.metrics.failedBackups + 1
    ∧ setupMetrics.lastBackupSuccess = 2
    ∧ (∀ st2 : ServerState, st2.lockHeld = true →
        (httpCreateHandler st2 tStart tEnd res marshalOk).state.metrics = st2.metrics)
    ∧ (∀ (st3 : ServerState) (r : Except String Unit) (mk : Bool)
        (whereArg : String) (rl rr : Except String Unit)
        (bodyRead : Except String String)
        (yamlParse : String → Except String ConfigPatch)
        (validate : Config → Except String Unit),
        (httpFreezeHandler st3 r mk).state.metrics = st3.metrics
        ∧ (httpCleanHandler st3 r mk).state.metrics = st3.metrics
        ∧ (httpUploadHandler st3 r mk).state.metrics = st3.metrics
        ∧ (httpDownloadHandler st3 r mk).state.metrics = st3.metrics
        ∧ (httpRestoreHandler st3 r mk).state.metrics = st3.metrics
        ∧ (httpDeleteHandler st3 whereArg rl rr mk).state.metrics = st3.metrics
        ∧ (httpConfigUpdateHandler st3 bodyRead yamlParse validate).state.metrics
            = st3.metrics) := by
  refine ⟨?_, ?_, ?_, ?_, ?_, ?_, ?_, rfl, ?_, ?_⟩
  · cases res <;> cases marshalOk <;> simp [httpCreateHandler, hlock]
  · cases res <;> cases marshalOk <;> simp [httpCreateHandler, hlock]
  · cases res <;> cases marshalOk <;> simp [httpCreateHandler, hlock]
  · rintro n rfl hmk
    subst hmk
    refine ⟨?_, ?_, ?_⟩ <;> simp [httpCreateHandler, hlock]
  · rintro e rfl
    refine ⟨?_, ?_, ?_⟩ <;> simp [httpCreateHandler, hlock]
  · rintro n rfl hmk
    subst hmk
    refine ⟨?_, ?_, ?_⟩ <;> simp [httpCreateHandler, hlock]
  · cases res <;> cases marshalOk <;> simp [httpCreateHandler, hlock] <;> omega
  · intro st2 h2
    simp [httpCreateHandler, h2, apiLockedOut]
  · intro st3 r mk whereArg rl rr bodyRead yamlParse validate
    exact ⟨freeze_metrics_unchanged st3 r mk, clean_metrics_unchanged st3 r mk,
      upload_metrics_unchanged st3 r mk, download_metrics_unchanged st3 r mk,
      restore_metrics_unchanged st3 r mk,
      delete_metrics_unchanged st3 whereArg rl rr mk,
      config_update_metrics_unchanged st3 bodyRead yamlParse validate⟩

/-- Claim C6 witness: a lock-free server whose create attempt fails: start, end
and duration gauges take the clock samples, the failure counter grows by
one and the success gauge reads 0. -/
theorem C6_create_metrics_witness :
    (httpCreateHandler ⟨false, DefaultConfig, setupMetrics⟩ 10 17
        (.error "boom") true).state.metrics.lastBackupStart = 10
    ∧ (httpCreateHandler ⟨false, DefaultConfig, setupMetrics⟩ 10 17
        (.error "boom") true).state.metrics.lastBackupSuccess = 0
    ∧ (httpCreateHandler ⟨false, DefaultConfig, setupMetrics⟩ 10 17
        (.error "boom") true).state.metrics.failedBackups = 1 := by
  have h := C6_create_metrics ⟨false, DefaultConfig, setupMetrics⟩ 10 17
    (.error "boom") true rfl
  exact ⟨h.1, (h.2.2.2.2.1 "boom" rfl).1,
    (h.2.2.2.2.1 "boom" rfl).2.1⟩

/-- Claim C7 counterexample: only the S3 adapter knows about hostname
embedding.  GCS.PutFile and COS.PutFile store the key byte-for-byte
unchanged — there is no hostname-embedding branch in either adapter — so
on a deployment with the option enabled and hostname h1 the stored key is
not the rewritten dir/h1_name.ext the claim requires. -/
theorem C7_gcs_cos_never_rewrite :
    (gcsPutFile ⟨"b"⟩ "dir/name.ext" "" (fun _ => .ok ())).1.key = "dir/name.ext"
    ∧ (cosPutFile "u" "dir/name.ext" "" (fun _ => .ok ())).1.key = "dir/name.ext"
    ∧ "dir/name.ext" ≠ "dir/h1_name.ext" :=
  ⟨rfl, rfl, by decide⟩

/-- Claim C7 amended: only S3.PutFile embeds the hostname: with
PathHostnameInclude set and a resolvable hostname the stored key is
dir/<hostname>_<base>, with the option unset the key is unchanged; GCS
and COS always store the key unchanged. -/
theorem C7_hostname_embedding (cfg : S3Config) (h : String)
    (henabled : cfg.pathHostnameInclude = true) :
    (∀ key, s3PutKey cfg (some h) key
      = goPathDir key ++ "/" ++ h ++ "_" ++ goPathBase key)
    ∧ (∀ cfg2 : S3Config, cfg2.pathHostnameInclude = false →
        ∀ hn key, s3PutKey cfg2 hn key = key)
    ∧ (∀ (g : GCSConfig) key obk w, (gcsPutFile g key obk w).1.key = key)
    ∧ (∀ client key obk w, (cosPutFile client key obk w).1.key = key)
    ∧ s3PutKey cfg (some "h1") "dir/name.ext" = "dir/h1_name.ext" := by
  refine ⟨fun key => by simp [s3PutKey, henabled],
    fun cfg2 hoff hn key => by simp [s3PutKey, hoff],
    fun g key obk w => ?_, fun client key obk w => ?_, ?_⟩
  · simp only [gcsPutFile]
    split <;> rfl
  · simp only [cosPutFile]
    split <;> rfl
  · simp only [s3PutKey, henabled, if_pos]
    rfl

/-- Claim C7 witness: the amended statement at a concrete enabled configuration
and hostname. -/
theorem C7_hostname_embedding_witness :
    s3PutKey ⟨"b", "p", 5, true⟩ (some "h1") "dir/name.ext"
      = "dir/h1_name.ext" :=
  (C7_hostname_embedding ⟨"b", "p", 5, true⟩ "h1" rfl).2.2.2.2

/-- Claim C8 counterexample: S3.Connect writes MaxRetries 30 into the aws.Config
of the session every S3 call runs on, so a call whose underlying attempts
all fail is issued 31 times by the SDK inside one adapter operation — not
the single attempt the claim requires of every adapter. -/
theorem C8_s3_sdk_retries :
    s3AwsMaxRetries = 30
    ∧ sdkAttempts (s3AwsMaxRetries + 1) (fun _ => false) = 31
    ∧ (31 : Nat) ≠ 1 :=
  ⟨rfl, rfl, by decide⟩

/-- Claim C8 amended: an adapter that configures no retries (GCS, COS) makes
exactly one underlying call per operation, whatever the outcome; the S3
adapter, whose session carries MaxRetries 30, makes a second underlying
call as soon as the first one fails. -/
theorem C8_retry_config (ok : Nat → Bool) (hfail : ok 0 = false) :
    (∀ ok2 : Nat → Bool, sdkAttempts (0 + 1) ok2 = 1)
    ∧ 2 ≤ sdkAttempts (s3AwsMaxRetries + 1) ok
    ∧ s3AwsMaxRetries = 30 := by
  refine ⟨fun ok2 => ?_, ?_, rfl⟩
  · cases h : ok2 0 <;> simp [sdkAttempts, h]
  · have h1 : sdkAttempts (s3AwsMaxRetries + 1) ok
        = 1 + sdkAttempts s3AwsMaxRetries (fun i => ok (i + 1)) := by
      simp [s3AwsMaxRetries, sdkAttempts, hfail]
    have h2 : 1 ≤ sdkAttempts s3AwsMaxRetries (fun i => ok (i + 1)) :=
      sdkAttempts_pos _ _ (by simp [s3AwsMaxRetries])
    omega

/-- Claim C8 witness: the amended statement at the all-failing oracle. -/
theorem C8_retry_config_witness :
    2 ≤ sdkAttempts (s3AwsMaxRetries + 1) (fun _ => false) :=
  (C8_retry_config (fun _ => false) rfl).2.1

/-- Claim C9 counterexample: a run whose first generation is closed by a
successful reload and whose second generation fails to bind.  The
goroutine of every generation calls os.Exit(1) on a non-ErrServerClosed
listen result, so the process terminates — against the claim that only a
first-generation bind failure may do so. -/
theorem C9_exit_after_reload :
    serverLoopExits [ListenOutcome.serverClosed,
      ListenOutcome.bindError "listen tcp: address already in use"] = true
    ∧ ([ListenOutcome.serverClosed,
        ListenOutcome.bindError "listen tcp: address already in use"].head?
        = some ListenOutcome.serverClosed) :=
  ⟨rfl, rfl⟩

/-- Claim C9 amended: the process exits via os.Exit(1) exactly when some
generation, first or later, gets a listen result other than
http.ErrServerClosed (a bind failure); handler outcomes never appear in
the loop, so no handler or adapter failure can terminate it. -/
theorem C9_exit_iff_bind_error (outs : List ListenOutcome) :
    serverLoopExits outs = true ↔ ∃ msg, ListenOutcome.bindError msg ∈ outs := by
  induction outs with
  | nil => simp [serverLoopExits]
  | cons o rest ih =>
      cases o with
      | serverClosed => simp [serverLoopExits, ih, List.mem_cons]
      | bindError m => simp [serverLoopExits, List.mem_cons]

/-- Claim C10: a POST to the config-update endpoint unmarshals the body over a
freshly constructed DefaultConfig: every field absent from the document
ends up with its default value — not the value of the currently serving
configuration — and the applied configuration is exactly the defaults
overridden by the document fields, after which the restart signal is
sent. -/
theorem C10_unmarshal_over_defaults (st : ServerState) (body : String)
    (yamlParse : String → Except String ConfigPatch)
    (validate : Config → Except String Unit) (p : ConfigPatch)
    (hlock : st.lockHeld = false)
    (hparse : yamlParse body = .ok p)
    (hvalid : validate (yamlUnmarshalOver DefaultConfig p) = .ok ()) :
    (httpConfigUpdateHandler st (.ok body) yamlParse validate).state.config
      = yamlUnmarshalOver DefaultConfig p
    ∧ (p.apiListenAddr = none →
        (httpConfigUpdateHandler st (.ok body) yamlParse
          validate).state.config.apiListenAddr = DefaultConfig.apiListenAddr)
    ∧ (p.generalRemoteStorage = none →
        (httpConfigUpdateHandler st (.ok body) yamlParse
          validate).state.config.generalRemoteStorage
          = DefaultConfig.generalRemoteStorage)
    ∧ (p.s3Bucket = none →
        (httpConfigUpdateHandler st (.ok body) yamlParse
          validate).state.config.s3Bucket = DefaultConfig.s3Bucket)
    ∧ (httpConfigUpdateHandler st (.ok body) yamlParse validate).restartSent
        = true := by
  have hmain : (httpConfigUpdateHandler st (.ok body) yamlParse
      validate).state.config = yamlUnmarshalOver DefaultConfig p := by
    simp [httpConfigUpdateHandler, hlock, hparse, hvalid]
  refine ⟨hmain, ?_, ?_, ?_, ?_⟩
  · intro hnone
    rw [hmain]
    simp [yamlUnmarshalOver, hnone]
  · intro hnone
    rw [hmain]
    simp [yamlUnmarshalOver, hnone]
  · intro hnone
    rw [hmain]
    simp [yamlUnmarshalOver, hnone]
  · simp [httpConfigUpdateHandler, hlock, hparse, hvalid]

/-- Claim C10 witness: the current configuration listens on other:9999, the
submitted document only sets the remote storage: the applied
configuration falls back to the default listen address, not to the
currently serving one. -/
theorem C10_unmarshal_over_defaults_witness :
    (httpConfigUpdateHandler ⟨false, ⟨"other:9999", "s3", "bkt"⟩, setupMetrics⟩
        (.ok "doc") (fun _ => .ok ⟨none, some "gcs", none⟩)
        (fun _ => .ok ())).state.config.apiListenAddr = "localhost:7171"
    ∧ ("localhost:7171" : String) ≠ "other:9999" :=
  ⟨(C10_unmarshal_over_defaults ⟨false, ⟨"other:9999", "s3", "bkt"⟩, setupMetrics⟩
      "doc" (fun _ => .ok ⟨none, some "gcs", none⟩) (fun _ => .ok ())
      ⟨none, some "gcs", none⟩ rfl rfl rfl).2.1 rfl, by decide⟩

end ChBackup
